import Mathlib

/-
  Verification development for the ebpf-hpc-monitor repository.

  Shallow embedding of the pure computational core of
  scripts/data_analyzer.py (JobAnalyzer, JobClassifier) and
  scripts/slurm_integration.py (SlurmIntegration), with theorems checking
  the natural-language specification against it.

  Conventions: Python floats are modelled as exact rationals (ℚ);
  Python ints as ℕ/ℤ; Python dict-shaped metric records as the fixed
  structure JobMetrics (fields exactly those produced by
  JobAnalyzer._empty_metrics / aggregate_pid_metrics).
-/

/-! ## data_analyzer.py : JobAnalyzer syscall sets (lines 30-31) -/

/-- Embeds `self.io_syscalls = {0, 1, 2, 3, 4, 5, 8, 19, 20, 21, 22}`. -/
def io_syscalls : Finset ℕ := {0, 1, 2, 3, 4, 5, 8, 19, 20, 21, 22}

/-- Embeds `self.net_syscalls = {41, 42, 43, 44, 45, 46, 47, 48, 49, 50}`. -/
def net_syscalls : Finset ℕ := {41, 42, 43, 44, 45, 46, 47, 48, 49, 50}

/-- Result of the per-syscall-id branch in `aggregate_pid_metrics`. -/
inductive SyscallKind where
  | io
  | net
  | other
  deriving DecidableEq, Repr

/-- Embeds the `if syscall_id in self.io_syscalls ... elif syscall_id in
self.net_syscalls ...` branch of `aggregate_pid_metrics` (lines 91-94):
how one syscall id is classified while counting. -/
def syscallKind (n : ℕ) : SyscallKind :=
  if n ∈ io_syscalls then SyscallKind.io
  else if n ∈ net_syscalls then SyscallKind.net
  else SyscallKind.other

/-! ## data_analyzer.py : the metrics record -/

/-- The metrics record produced by `JobAnalyzer` (the exact key set of
`_empty_metrics` / `aggregate_pid_metrics`). Counter and nanosecond
fields are ℕ, derived percentage and average fields are ℚ. -/
@[ext] structure JobMetrics where
  total_syscalls : ℕ
  io_syscalls : ℕ
  net_syscalls : ℕ
  context_switches : ℕ
  cpu_time_ns : ℕ
  wait_time_ns : ℕ
  cpu_percent : ℚ
  wait_percent : ℚ
  io_percent : ℚ
  net_percent : ℚ
  total_io_bytes : ℕ
  read_bytes : ℕ
  write_bytes : ℕ
  io_operations : ℕ
  total_net_bytes : ℕ
  send_bytes : ℕ
  recv_bytes : ℕ
  net_operations : ℕ
  avg_syscall_duration : ℚ
  monitored_pids : ℕ
  deriving DecidableEq, Repr

/-- Embeds `JobAnalyzer.update_metrics` (lines 226-259).  The key list of
the accumulation loop is exactly the source's list (note: it does not
contain `monitored_pids`, which is therefore carried over unchanged by
`updated = old_metrics.copy()`); percentages are recomputed only under
the source's positivity guards; the average syscall duration is the
count-weighted average guarded by `old_count + new_count > 0`. -/
def update_metrics (old_metrics new_metrics : JobMetrics) : JobMetrics :=
  { old_metrics with
    total_syscalls := old_metrics.total_syscalls + new_metrics.total_syscalls
    io_syscalls := old_metrics.io_syscalls + new_metrics.io_syscalls
    net_syscalls := old_metrics.net_syscalls + new_metrics.net_syscalls
    context_switches := old_metrics.context_switches + new_metrics.context_switches
    cpu_time_ns := old_metrics.cpu_time_ns + new_metrics.cpu_time_ns
    wait_time_ns := old_metrics.wait_time_ns + new_metrics.wait_time_ns
    total_io_bytes := old_metrics.total_io_bytes + new_metrics.total_io_bytes
    read_bytes := old_metrics.read_bytes + new_metrics.read_bytes
    write_bytes := old_metrics.write_bytes + new_metrics.write_bytes
    io_operations := old_metrics.io_operations + new_metrics.io_operations
    total_net_bytes := old_metrics.total_net_bytes + new_metrics.total_net_bytes
    send_bytes := old_metrics.send_bytes + new_metrics.send_bytes
    recv_bytes := old_metrics.recv_bytes + new_metrics.recv_bytes
    net_operations := old_metrics.net_operations + new_metrics.net_operations
    cpu_percent :=
      if 0 < (old_metrics.cpu_time_ns + new_metrics.cpu_time_ns)
          + (old_metrics.wait_time_ns + new_metrics.wait_time_ns) then
        (((old_metrics.cpu_time_ns + new_metrics.cpu_time_ns : ℕ) : ℚ)
          / (((old_metrics.cpu_time_ns + new_metrics.cpu_time_ns)
              + (old_metrics.wait_time_ns + new_metrics.wait_time_ns) : ℕ) : ℚ)) * 100
      else old_metrics.cpu_percent
    wait_percent :=
      if 0 < (old_metrics.cpu_time_ns + new_metrics.cpu_time_ns)
          + (old_metrics.wait_time_ns + new_metrics.wait_time_ns) then
        (((old_metrics.wait_time_ns + new_metrics.wait_time_ns : ℕ) : ℚ)
          / (((old_metrics.cpu_time_ns + new_metrics.cpu_time_ns)
              + (old_metrics.wait_time_ns + new_metrics.wait_time_ns) : ℕ) : ℚ)) * 100
      else old_metrics.wait_percent
    io_percent :=
      if 0 < old_metrics.total_syscalls + new_metrics.total_syscalls then
        (((old_metrics.io_syscalls + new_metrics.io_syscalls : ℕ) : ℚ)
          / ((old_metrics.total_syscalls + new_metrics.total_syscalls : ℕ) : ℚ)) * 100
      else old_metrics.io_percent
    net_percent :=
      if 0 < old_metrics.total_syscalls + new_metrics.total_syscalls then
        (((old_metrics.net_syscalls + new_metrics.net_syscalls : ℕ) : ℚ)
          / ((old_metrics.total_syscalls + new_metrics.total_syscalls : ℕ) : ℚ)) * 100
      else old_metrics.net_percent
    avg_syscall_duration :=
      if 0 < old_metrics.total_syscalls + new_metrics.total_syscalls then
        (old_metrics.avg_syscall_duration * ((old_metrics.total_syscalls : ℕ) : ℚ)
          + new_metrics.avg_syscall_duration * ((new_metrics.total_syscalls : ℕ) : ℚ))
          / ((old_metrics.total_syscalls + new_metrics.total_syscalls : ℕ) : ℚ)
      else old_metrics.avg_syscall_duration }

/-- Modelled from the spec (testable property 2 and claim C5): `merge`
sums every counter field of two windowed measurements; its average
syscall duration is the count-weighted mean of the two inputs; its
derived percentages are recomputed from the summed inputs (they are
never read by `update_metrics`). -/
def merge_metrics (a b : JobMetrics) : JobMetrics :=
  { total_syscalls := a.total_syscalls + b.total_syscalls
    io_syscalls := a.io_syscalls + b.io_syscalls
    net_syscalls := a.net_syscalls + b.net_syscalls
    context_switches := a.context_switches + b.context_switches
    cpu_time_ns := a.cpu_time_ns + b.cpu_time_ns
    wait_time_ns := a.wait_time_ns + b.wait_time_ns
    total_io_bytes := a.total_io_bytes + b.total_io_bytes
    read_bytes := a.read_bytes + b.read_bytes
    write_bytes := a.write_bytes + b.write_bytes
    io_operations := a.io_operations + b.io_operations
    total_net_bytes := a.total_net_bytes + b.total_net_bytes
    send_bytes := a.send_bytes + b.send_bytes
    recv_bytes := a.recv_bytes + b.recv_bytes
    net_operations := a.net_operations + b.net_operations
    monitored_pids := a.monitored_pids + b.monitored_pids
    cpu_percent :=
      if 0 < (a.cpu_time_ns + b.cpu_time_ns) + (a.wait_time_ns + b.wait_time_ns) then
        (((a.cpu_time_ns + b.cpu_time_ns : ℕ) : ℚ)
          / (((a.cpu_time_ns + b.cpu_time_ns) + (a.wait_time_ns + b.wait_time_ns) : ℕ) : ℚ)) * 100
      else 0
    wait_percent :=
      if 0 < (a.cpu_time_ns + b.cpu_time_ns) + (a.wait_time_ns + b.wait_time_ns) then
        (((a.wait_time_ns + b.wait_time_ns : ℕ) : ℚ)
          / (((a.cpu_time_ns + b.cpu_time_ns) + (a.wait_time_ns + b.wait_time_ns) : ℕ) : ℚ)) * 100
      else 0
    io_percent :=
      if 0 < a.total_syscalls + b.total_syscalls then
        (((a.io_syscalls + b.io_syscalls : ℕ) : ℚ)
          / ((a.total_syscalls + b.total_syscalls : ℕ) : ℚ)) * 100
      else 0
    net_percent :=
      if 0 < a.total_syscalls + b.total_syscalls then
        (((a.net_syscalls + b.net_syscalls : ℕ) : ℚ)
          / ((a.total_syscalls + b.total_syscalls : ℕ) : ℚ)) * 100
      else 0
    avg_syscall_duration :=
      if 0 < a.total_syscalls + b.total_syscalls then
        (a.avg_syscall_duration * ((a.total_syscalls : ℕ) : ℚ)
          + b.avg_syscall_duration * ((b.total_syscalls : ℕ) : ℚ))
          / ((a.total_syscalls + b.total_syscalls : ℕ) : ℚ)
      else 0 }

/-! ## data_analyzer.py : scheduler-event folding (lines 194-224) -/

/-- One scheduler context-switch event as consumed by
`_analyze_sched_events`: a dict with keys `timestamp`, `prev_pid`,
`next_pid`. -/
structure SchedEvent where
  timestamp : ℤ
  prev_pid : ℕ
  next_pid : ℕ
  deriving DecidableEq, Repr

/-- Ordering used by `sorted(events, key=lambda x: x['timestamp'])`. -/
def sched_le (a b : SchedEvent) : Prop := a.timestamp ≤ b.timestamp

instance : DecidableRel sched_le :=
  fun a b => inferInstanceAs (Decidable (a.timestamp ≤ b.timestamp))

instance : IsTotal SchedEvent sched_le :=
  ⟨fun a b => Int.le_total a.timestamp b.timestamp⟩

instance : IsTrans SchedEvent sched_le :=
  ⟨fun _ _ _ h1 h2 => le_trans h1 h2⟩

/-- Embeds the event loop of `_analyze_sched_events` (lines 206-216).
State `last_scheduled_in` is `Option ℤ`; the guard
`elif event['prev_pid'] == target_pid and last_scheduled_in:` is Python
truthiness, so a recorded timestamp equal to 0 does NOT close an
interval (0 is falsy).  `cpu_periods` is accumulated in append order. -/
def sched_fold (target_pid : ℕ) :
    List SchedEvent → Option ℤ → List ℤ → List ℤ
  | [], _, cpu_periods => cpu_periods
  | e :: rest, last_scheduled_in, cpu_periods =>
    if e.next_pid = target_pid then
      sched_fold target_pid rest (some e.timestamp) cpu_periods
    else
      match last_scheduled_in with
      | some t =>
        if e.prev_pid = target_pid ∧ t ≠ 0 then
          sched_fold target_pid rest none (cpu_periods ++ [e.timestamp - t])
        else
          sched_fold target_pid rest (some t) cpu_periods
      | none => sched_fold target_pid rest none cpu_periods

/-- Embeds `JobAnalyzer._analyze_sched_events` (lines 194-224): returns
`(cpu_periods, wait_periods)`.  Events are first sorted by timestamp;
fewer than two events yield empty lists; `wait_periods` is the
"half of the preceding CPU period" heuristic (`//` is floor division). -/
def analyze_sched_events (events : List SchedEvent) (target_pid : ℕ) :
    List ℤ × List ℤ :=
  if events.length < 2 then ([], [])
  else
    let sorted_events := List.insertionSort sched_le events
    let cpu_periods := sched_fold target_pid sorted_events none []
    let wait_periods :=
      (List.range (cpu_periods.length - 1)).map
        (fun i => Int.fdiv (cpu_periods.getD i 0) 2)
    (cpu_periods, wait_periods)

/-- Wall-clock span of an event list: latest timestamp minus earliest
timestamp (0 for an empty list). -/
def sched_span (events : List SchedEvent) : ℤ :=
  match events with
  | [] => 0
  | e :: rest =>
    rest.foldl (fun m x => max m x.timestamp) e.timestamp
      - rest.foldl (fun m x => min m x.timestamp) e.timestamp

/-! ## data_analyzer.py : JobClassifier (lines 302-454) -/

/-- The classification thresholds read in `JobClassifier.__init__`
(lines 311-314), with the source's `config.get` defaults. -/
structure ClassifierConfig where
  cpu_bound_threshold : ℚ := 70
  io_bound_threshold : ℚ := 30
  idle_threshold : ℚ := 50
  context_switch_threshold : ℕ := 1000
  deriving DecidableEq, Repr

/-- A `JobClassifier()` built with no config dict: every threshold is
its default. -/
def default_classifier_config : ClassifierConfig := {}

/-- Embeds `JobClassifier.classify_job` (lines 316-356). -/
def classify_job (cfg : ClassifierConfig) (m : JobMetrics) : String :=
  if m.total_syscalls = 0 then "Unknown"
  else if m.cpu_percent ≥ cfg.cpu_bound_threshold then
    if m.io_percent < 10 then "CPU-bound" else "CPU-IO-mixed"
  else if m.io_percent ≥ cfg.io_bound_threshold then
    if m.context_switches > cfg.context_switch_threshold then "IO-bound-intensive"
    else "IO-bound"
  else if m.wait_percent ≥ cfg.idle_threshold then
    if m.context_switches > cfg.context_switch_threshold then "Idle-heavy-switching"
    else "Idle-heavy"
  else
    if m.context_switches > cfg.context_switch_threshold then "Mixed-intensive"
    else "Balanced"

/-- The label decision tree exactly as the specification words it
(claim C1), with the default thresholds written as literals. -/
def classify_decision_tree (m : JobMetrics) : String :=
  if m.total_syscalls = 0 then "Unknown"
  else if m.cpu_percent ≥ 70 then
    if m.io_percent < 10 then "CPU-bound" else "CPU-IO-mixed"
  else if m.io_percent ≥ 30 then
    if m.context_switches > 1000 then "IO-bound-intensive" else "IO-bound"
  else if m.wait_percent ≥ 50 then
    if m.context_switches > 1000 then "Idle-heavy-switching" else "Idle-heavy"
  else
    if m.context_switches > 1000 then "Mixed-intensive" else "Balanced"

/-- Embeds `JobClassifier.get_efficiency_score` (lines 417-454).
Note the context-switch penalty threshold 1000 is a literal in the
source, independent of the configurable classification threshold. -/
def get_efficiency_score (m : JobMetrics) : ℚ :=
  if m.total_syscalls = 0 then 0
  else
    max 0 (min 100
      (min m.cpu_percent 100 * (4 / 10)
        + (if m.io_percent < 5 then m.io_percent * 4
           else if m.io_percent > 50 then max 0 (50 - (m.io_percent - 50))
           else 20) * (3 / 10)
        - min (m.wait_percent * (5 / 10)) 30
        - (if m.context_switches > 1000 then
             min (((m.context_switches : ℚ) - 1000) / 1000 * 10) 20
           else 0)))

/-- Helper building a `JobMetrics` record from the five fields the
classifier reads, all remaining fields zero. -/
def mkMetrics (cpu io wait : ℚ) (cs ts : ℕ) : JobMetrics :=
  { total_syscalls := ts
    io_syscalls := 0
    net_syscalls := 0
    context_switches := cs
    cpu_time_ns := 0
    wait_time_ns := 0
    cpu_percent := cpu
    wait_percent := wait
    io_percent := io
    net_percent := 0
    total_io_bytes := 0
    read_bytes := 0
    write_bytes := 0
    io_operations := 0
    total_net_bytes := 0
    send_bytes := 0
    recv_bytes := 0
    net_operations := 0
    avg_syscall_duration := 0
    monitored_pids := 0 }

/-- The spec's E1 scenario input
`{cpu_percent: 85, io_percent: 5, wait_percent: 10, context_switches: 500,
total_syscalls: 10000}`. -/
def metrics_E1 : JobMetrics := mkMetrics 85 5 10 500 10000

/-! ## slurm_integration.py : the PID-set cache (lines 29-38, 194-245) -/

/-- The mutable resolver state of `SlurmIntegration`: `self.job_cache`
(job id → cached PID set) and the single shared timestamp
`self.last_cache_update`.  Note the source keeps ONE timestamp for the
whole cache, not one per entry. -/
structure SlurmCache where
  job_cache : String → Option (Finset ℕ)
  last_cache_update : ℚ

/-- Embeds the refresh path of `get_job_pids` (lines 203-210): strategy
results are abstracted as functions; `_get_slurm_job_pids` is consulted
only when Slurm is available, and `_get_pids_by_process_inspection` only
when the first result is empty. -/
def refresh_pids (slurm_available : Bool)
    (slurm_resolve inspect_resolve : String → Finset ℕ) (job_id : String) :
    Finset ℕ :=
  let pids := if slurm_available then slurm_resolve job_id else ∅
  if pids = ∅ then inspect_resolve job_id else pids

/-- Embeds `SlurmIntegration.get_job_pids` (lines 194-216).  Returns the
PID set, the updated state, and whether a refresh (any resolution
strategy) was performed.  Cache hit requires the job to be cached AND
`current_time - self.last_cache_update < self.cache_timeout`. -/
def get_job_pids (cache_timeout : ℚ) (slurm_available : Bool)
    (slurm_resolve inspect_resolve : String → Finset ℕ)
    (s : SlurmCache) (job_id : String) (current_time : ℚ) :
    Finset ℕ × SlurmCache × Bool :=
  match s.job_cache job_id with
  | some cached =>
    if current_time - s.last_cache_update < cache_timeout then
      (cached, s, false)
    else
      let pids := refresh_pids slurm_available slurm_resolve inspect_resolve job_id
      (pids,
        { job_cache := fun j => if j = job_id then some pids else s.job_cache j
          last_cache_update := current_time },
        true)
  | none =>
    let pids := refresh_pids slurm_available slurm_resolve inspect_resolve job_id
    (pids,
      { job_cache := fun j => if j = job_id then some pids else s.job_cache j
        last_cache_update := current_time },
      true)

/-- An empty resolver state: nothing cached, `last_cache_update = 0`
(as set in `__init__`). -/
def empty_slurm_cache : SlurmCache :=
  { job_cache := fun _ => none, last_cache_update := 0 }

/-! ## slurm_integration.py : pseudo-job fallback (lines 50-54, 353-398) -/

/-- The process attributes `_get_fallback_jobs` reads from
`psutil.process_iter(['pid', 'username', 'name', 'cmdline', 'create_time'])`. -/
structure ProcInfo where
  pid : ℕ
  username : String
  pname : String
  create_time : ℤ
  deriving DecidableEq, Repr

/-- The job dict built by the Slurm listing paths and the fallback. -/
structure JobDescriptor where
  job_id : String
  name : String
  user : String
  state : String
  time : String
  nodes : List String
  cpus : String
  memory : String
  partition : String
  deriving DecidableEq, Repr

/-- The skipped system accounts (line 369). -/
def system_users : List String := ["root", "daemon", "nobody"]

/-- The pseudo-job dict built for one user process (lines 373-383). -/
def pseudo_job (job_counter : ℕ) (p : ProcInfo) (now : ℤ) (nodename : String) :
    JobDescriptor :=
  { job_id := "proc_" ++ toString job_counter
    name := p.pname
    user := p.username
    state := "RUNNING"
    time := toString (now - p.create_time)
    nodes := [nodename]
    cpus := "1"
    memory := "unknown"
    partition := "fallback" }

/-- Embeds the process loop of `_get_fallback_jobs` (lines 360-393):
skip processes not matching the user filter, skip system accounts,
otherwise append a pseudo-job and stop once 50 jobs are collected
(the `len(jobs) >= 50` break runs after the append). -/
def fallback_jobs_loop (user_filter : Option String) (now : ℤ)
    (nodename : String) :
    List ProcInfo → List JobDescriptor → ℕ → List JobDescriptor
  | [], jobs, _ => jobs
  | p :: rest, jobs, job_counter =>
    if (match user_filter with
        | some u => p.username != u
        | none => false) then
      fallback_jobs_loop user_filter now nodename rest jobs job_counter
    else if p.username ∈ system_users then
      fallback_jobs_loop user_filter now nodename rest jobs job_counter
    else
      let jobs2 := jobs ++ [pseudo_job job_counter p now nodename]
      if 50 ≤ jobs2.length then jobs2
      else fallback_jobs_loop user_filter now nodename rest jobs2 (job_counter + 1)

/-- Embeds `SlurmIntegration._get_fallback_jobs` (lines 353-398). -/
def get_fallback_jobs (procs : List ProcInfo) (user_filter : Option String)
    (now : ℤ) (nodename : String) : List JobDescriptor :=
  fallback_jobs_loop user_filter now nodename procs [] 1

/-- Embeds `SlurmIntegration.get_running_jobs` (lines 50-54): when Slurm
is unavailable it answers from `_get_fallback_jobs`; otherwise it
returns the jobs parsed from the squeue output (abstracted here as an
input, since that path shells out). -/
def get_running_jobs (slurm_available : Bool)
    (squeue_jobs : List JobDescriptor) (procs : List ProcInfo)
    (now : ℤ) (nodename : String) : List JobDescriptor :=
  if slurm_available then squeue_jobs
  else get_fallback_jobs procs none now nodename

/-! ## Concrete inputs used by witnesses and counterexamples -/

/-- An input with `context_switches` exactly at the threshold 1000. -/
def metrics_cs1000 : JobMetrics := mkMetrics 20 40 20 1000 500

/-- An input with `total_syscalls = 0` but every other classifier input
nonzero. -/
def metrics_zero_syscalls : JobMetrics := mkMetrics 90 40 80 5000 0

/-- Old record for the `update_metrics` counterexample: one monitored
PID, a stale nonzero `cpu_percent`, zero time counters. -/
def update_old_input : JobMetrics := { mkMetrics 7 0 0 0 0 with monitored_pids := 1 }

/-- New record for the `update_metrics` counterexample: two monitored
PIDs, zero time counters. -/
def update_new_input : JobMetrics := { mkMetrics 0 0 0 0 0 with monitored_pids := 2 }

/-- Per-job resolution results used by the cache counterexamples. -/
def resolve_AB : String → Finset ℕ :=
  fun j => if j = "A" then {1} else {2}

/-- A resolver state with job "A" cached and the global timestamp at 10. -/
def cached_state_A : SlurmCache :=
  { job_cache := fun j => if j = "A" then some {5} else none
    last_cache_update := 10 }

/-- A concrete user-owned process for the fallback witness. -/
def proc_alice : ProcInfo :=
  { pid := 100, username := "alice", pname := "bash", create_time := 0 }

/-- Old record with positive time and syscall counters, for the
`update_metrics` witness. -/
def update_old_pos : JobMetrics :=
  { mkMetrics 0 0 0 0 3 with
    cpu_time_ns := 2, wait_time_ns := 2, io_syscalls := 1, net_syscalls := 1
    monitored_pids := 4 }

/-- New record with positive time counters, for the `update_metrics`
witness. -/
def update_new_pos : JobMetrics :=
  { mkMetrics 0 0 0 0 1 with cpu_time_ns := 1, io_syscalls := 1 }

/-! ## Theorems -/

/-- C1: For every JobMetrics input, `classify_job` with the default
thresholds returns the first matching label of the spec's decision
tree; the label is "Unknown" iff `total_syscalls = 0` (so any input
with positive `total_syscalls` gets a concrete label); and at
`context_switches` exactly 1000 no "-intensive" / "-switching" variant
is chosen, the comparison being strict. -/
theorem classify_job_default_tree (m : JobMetrics) :
    classify_job default_classifier_config m = classify_decision_tree m
    ∧ (classify_job default_classifier_config m = "Unknown" ↔ m.total_syscalls = 0)
    ∧ (m.context_switches = 1000 →
        classify_job default_classifier_config m ≠ "IO-bound-intensive"
        ∧ classify_job default_classifier_config m ≠ "Idle-heavy-switching"
        ∧ classify_job default_classifier_config m ≠ "Mixed-intensive") := by
  refine ⟨rfl, ?_, ?_⟩
  · unfold classify_job
    split_ifs <;> simp_all
  · intro hcs
    unfold classify_job
    split_ifs <;> simp_all [default_classifier_config]

/-- Witness for C1 at the concrete input `metrics_cs1000` (whose
`context_switches` is exactly 1000). -/
theorem classify_job_default_tree_witness :
    classify_job default_classifier_config metrics_cs1000 ≠ "IO-bound-intensive"
    ∧ classify_job default_classifier_config metrics_cs1000 ≠ "Idle-heavy-switching"
    ∧ classify_job default_classifier_config metrics_cs1000 ≠ "Mixed-intensive" :=
  (classify_job_default_tree metrics_cs1000).2.2 rfl

/-- C2 counterexample: on the spec's E1 input the efficiency score is
not within 0.1 of 49; the I/O component 20 is scaled by 0.3 before the
sum, so the source computes 34 + 6 − 5 − 0 = 35, not 34 + 20 − 5 − 0. -/
theorem efficiency_E1_counterexample :
    ¬ |get_efficiency_score metrics_E1 - 49| ≤ 1 / 10 := by
  have h : get_efficiency_score metrics_E1 = 35 := by
    unfold get_efficiency_score metrics_E1 mkMetrics
    norm_num [min_def, max_def]
  rw [h, abs_le]
  norm_num

/-- C2 (amended): on the E1 input `get_efficiency_score` returns
exactly 35 = 34 + 20·0.3 − 5 − 0. -/
theorem efficiency_E1_value : get_efficiency_score metrics_E1 = 35 := by
  unfold get_efficiency_score metrics_E1 mkMetrics
  norm_num [min_def, max_def]

/-- C8: the aggregation counts a syscall id as I/O exactly when it lies
in the pinned x86_64 I/O set, and as network exactly when it lies in
the pinned network set. -/
theorem syscall_sets_pinned (n : ℕ) :
    (syscallKind n = SyscallKind.io
      ↔ n ∈ ({0, 1, 2, 3, 4, 5, 8, 19, 20, 21, 22} : Finset ℕ))
    ∧ (syscallKind n = SyscallKind.net
      ↔ n ∈ ({41, 42, 43, 44, 45, 46, 47, 48, 49, 50} : Finset ℕ)) := by
  have hdisj : ¬ (n ∈ io_syscalls ∧ n ∈ net_syscalls) := by
    simp only [io_syscalls, net_syscalls, Finset.mem_insert, Finset.mem_singleton]
    omega
  unfold syscallKind
  by_cases h1 : n ∈ io_syscalls
  · rw [if_pos h1]
    refine ⟨iff_of_true rfl ?_, iff_of_false (by simp) ?_⟩
    · simpa [io_syscalls] using h1
    · intro hn
      exact hdisj ⟨h1, by simpa [net_syscalls] using hn⟩
  · rw [if_neg h1]
    by_cases h2 : n ∈ net_syscalls
    · rw [if_pos h2]
      refine ⟨iff_of_false (by simp) ?_, iff_of_true rfl ?_⟩
      · intro hn
        exact h1 (by simpa [io_syscalls] using hn)
      · simpa [net_syscalls] using h2
    · rw [if_neg h2]
      refine ⟨iff_of_false (by simp) ?_, iff_of_false (by simp) ?_⟩
      · intro hn
        exact h1 (by simpa [io_syscalls] using hn)
      · intro hn
        exact h2 (by simpa [net_syscalls] using hn)

/-- C10: whenever `total_syscalls = 0`, the efficiency score is exactly
0, regardless of every other field. -/
theorem efficiency_zero_syscalls (m : JobMetrics) (h : m.total_syscalls = 0) :
    get_efficiency_score m = 0 := by
  simp [get_efficiency_score, h]

/-- Witness for C10: zero syscalls but nonzero cpu, io, wait and
context-switch fields still score 0. -/
theorem efficiency_zero_syscalls_witness :
    get_efficiency_score metrics_zero_syscalls = 0 :=
  efficiency_zero_syscalls metrics_zero_syscalls rfl

/-- C3 counterexample: `update_metrics` does not sum `monitored_pids`
(the key is missing from the accumulation list, so the old value is
kept), and with both time sums zero the percentages are not recomputed
(the spec formula would give 0) but kept from the old record. -/
theorem update_metrics_claim_counterexample :
    (update_metrics update_old_input update_new_input).monitored_pids
      ≠ update_old_input.monitored_pids + update_new_input.monitored_pids
    ∧ (update_metrics update_old_input update_new_input).cpu_percent ≠ 0
    ∧ (update_old_input.cpu_time_ns + update_new_input.cpu_time_ns)
        + (update_old_input.wait_time_ns + update_new_input.wait_time_ns) = 0 := by
  refine ⟨by decide, ?_, by decide⟩
  show (7 : ℚ) ≠ 0
  norm_num

/-- C3 (amended): `update_metrics` sums the twelve counter fields of the
claim; `monitored_pids` keeps the old record's value; the derived
percentages are recomputed from the summed inputs whenever the
corresponding summed denominator is positive (otherwise they keep the
old record's value). -/
theorem update_metrics_fields (old_metrics new_metrics : JobMetrics) :
    ((update_metrics old_metrics new_metrics).total_syscalls
        = old_metrics.total_syscalls + new_metrics.total_syscalls
      ∧ (update_metrics old_metrics new_metrics).io_syscalls
        = old_metrics.io_syscalls + new_metrics.io_syscalls
      ∧ (update_metrics old_metrics new_metrics).net_syscalls
        = old_metrics.net_syscalls + new_metrics.net_syscalls
      ∧ (update_metrics old_metrics new_metrics).context_switches
        = old_metrics.context_switches + new_metrics.context_switches
      ∧ (update_metrics old_metrics new_metrics).io_operations
        = old_metrics.io_operations + new_metrics.io_operations
      ∧ (update_metrics old_metrics new_metrics).net_operations
        = old_metrics.net_operations + new_metrics.net_operations
      ∧ (update_metrics old_metrics new_metrics).read_bytes
        = old_metrics.read_bytes + new_metrics.read_bytes
      ∧ (update_metrics old_metrics new_metrics).write_bytes
        = old_metrics.write_bytes + new_metrics.write_bytes
      ∧ (update_metrics old_metrics new_metrics).send_bytes
        = old_metrics.send_bytes + new_metrics.send_bytes
      ∧ (update_metrics old_metrics new_metrics).recv_bytes
        = old_metrics.recv_bytes + new_metrics.recv_bytes
      ∧ (update_metrics old_metrics new_metrics).total_io_bytes
        = old_metrics.total_io_bytes + new_metrics.total_io_bytes
      ∧ (update_metrics old_metrics new_metrics).total_net_bytes
        = old_metrics.total_net_bytes + new_metrics.total_net_bytes)
    ∧ (update_metrics old_metrics new_metrics).monitored_pids
        = old_metrics.monitored_pids
    ∧ ((0 < (old_metrics.cpu_time_ns + new_metrics.cpu_time_ns)
          + (old_metrics.wait_time_ns + new_metrics.wait_time_ns) →
        (update_metrics old_metrics new_metrics).cpu_percent
          = (((old_metrics.cpu_time_ns + new_metrics.cpu_time_ns : ℕ) : ℚ)
              / (((old_metrics.cpu_time_ns + new_metrics.cpu_time_ns)
                  + (old_metrics.wait_time_ns + new_metrics.wait_time_ns) : ℕ) : ℚ)) * 100
        ∧ (update_metrics old_metrics new_metrics).wait_percent
          = (((old_metrics.wait_time_ns + new_metrics.wait_time_ns : ℕ) : ℚ)
              / (((old_metrics.cpu_time_ns + new_metrics.cpu_time_ns)
                  + (old_metrics.wait_time_ns + new_metrics.wait_time_ns) : ℕ) : ℚ)) * 100)
      ∧ (0 < old_metrics.total_syscalls + new_metrics.total_syscalls →
          (update_metrics old_metrics new_metrics).io_percent
            = (((old_metrics.io_syscalls + new_metrics.io_syscalls : ℕ) : ℚ)
                / ((old_metrics.total_syscalls + new_metrics.total_syscalls : ℕ) : ℚ)) * 100
          ∧ (update_metrics old_metrics new_metrics).net_percent
            = (((old_metrics.net_syscalls + new_metrics.net_syscalls : ℕ) : ℚ)
                / ((old_metrics.total_syscalls + new_metrics.total_syscalls : ℕ) : ℚ)) * 100)) := by
  refine ⟨⟨rfl, rfl, rfl, rfl, rfl, rfl, rfl, rfl, rfl, rfl, rfl, rfl⟩, rfl, ?_, ?_⟩
  · intro h
    exact ⟨by simp [update_metrics, h], by simp [update_metrics, h]⟩
  · intro h
    exact ⟨by simp [update_metrics, h], by simp [update_metrics, h]⟩

/-- C4 counterexample: the cache keeps one global timestamp, so a read
can hit a stale entry.  Job "A" is stored at time 0, job "B" at time 29
(updating the shared timestamp), and at time 58 a read of "A" returns
the cached set from time 0 without refreshing, although
0 + TTL = 30 < 58.  The second call did not touch entry "A". -/
theorem stale_cache_entry_counterexample :
    let call := get_job_pids 30 true resolve_AB (fun _ => ∅)
    let c1 := call empty_slurm_cache "A" 0
    let c2 := call c1.2.1 "B" 29
    let c3 := call c2.2.1 "A" 58
    c3.2.2 = false ∧ c3.1 = c1.1
      ∧ c2.2.1.job_cache "A" = c1.2.1.job_cache "A"
      ∧ ¬ ((0 : ℚ) + 30 ≥ 58) := by
  have hBA : ("B" : String) ≠ "A" := by decide
  have hAB : ("A" : String) ≠ "B" := by decide
  have hf1 : ({1} : Finset ℕ) ≠ ∅ := by decide
  have hf2 : ({2} : Finset ℕ) ≠ ∅ := by decide
  refine ⟨?_, ?_, ?_, by norm_num⟩ <;>
    norm_num [get_job_pids, empty_slurm_cache, refresh_pids, resolve_AB,
      hBA, hAB, hf1, hf2]

/-- C4 (amended): whenever `get_job_pids` answers from the cache without
invoking any resolution strategy, the elapsed time since the single
global `last_cache_update` timestamp is strictly below the TTL; the age
of the individual job's entry is not bounded. -/
theorem cached_read_globally_fresh (cache_timeout : ℚ) (slurm_available : Bool)
    (slurm_resolve inspect_resolve : String → Finset ℕ)
    (s : SlurmCache) (job_id : String) (current_time : ℚ)
    (h : (get_job_pids cache_timeout slurm_available slurm_resolve inspect_resolve
            s job_id current_time).2.2 = false) :
    current_time - s.last_cache_update < cache_timeout := by
  unfold get_job_pids at h
  rcases hc : s.job_cache job_id with _ | cached
  · rw [hc] at h
    simp at h
  · rw [hc] at h
    by_cases ht : current_time - s.last_cache_update < cache_timeout
    · exact ht
    · simp [ht] at h

/-- Witness for C4 (amended): a concrete cached read at time 12 against
a cache last updated at time 10. -/
theorem cached_read_globally_fresh_witness :
    (12 : ℚ) - cached_state_A.last_cache_update < 30 :=
  cached_read_globally_fresh 30 true resolve_AB (fun _ => ∅)
    cached_state_A "A" 12
    (by norm_num [get_job_pids, cached_state_A])

/-- C7 counterexample: two calls for the same job 2 seconds apart (well
within the 30 s TTL, no cache clear in between), where the second call
nevertheless invokes the resolution strategies: the first of the two
was a cache hit, so it did not advance the single global timestamp. -/
theorem cache_hit_claim_counterexample :
    let call := get_job_pids 30 true resolve_AB (fun _ => ∅)
    let c1 := call empty_slurm_cache "J" 0
    let c2 := call c1.2.1 "J" 29
    let c3 := call c2.2.1 "J" 31
    (31 : ℚ) - 29 < 30 ∧ c2.2.2 = false ∧ c3.2.2 = true := by
  have hJA : ("J" : String) ≠ "A" := by decide
  have hf2 : ({2} : Finset ℕ) ≠ ∅ := by decide
  refine ⟨by norm_num, ?_, ?_⟩ <;>
    norm_num [get_job_pids, empty_slurm_cache, refresh_pids, resolve_AB, hJA, hf2]

/-- C7 (amended): if the first call performed a refresh (in particular
on any first-ever lookup of a job), then a second call for the same job
within the TTL returns a PID set equal to the first call's result and
invokes no resolution strategy.  (If the first call was itself a cache
hit, the shared global timestamp can instead force a refresh.) -/
theorem refresh_then_hit (cache_timeout : ℚ) (slurm_available : Bool)
    (slurm_resolve inspect_resolve : String → Finset ℕ)
    (s : SlurmCache) (job_id : String) (t1 t2 : ℚ)
    (h1 : (get_job_pids cache_timeout slurm_available slurm_resolve inspect_resolve
            s job_id t1).2.2 = true)
    (h2 : t2 - t1 < cache_timeout) :
    (get_job_pids cache_timeout slurm_available slurm_resolve inspect_resolve
        (get_job_pids cache_timeout slurm_available slurm_resolve inspect_resolve
          s job_id t1).2.1 job_id t2).1
      = (get_job_pids cache_timeout slurm_available slurm_resolve inspect_resolve
          s job_id t1).1
    ∧ (get_job_pids cache_timeout slurm_available slurm_resolve inspect_resolve
        (get_job_pids cache_timeout slurm_available slurm_resolve inspect_resolve
          s job_id t1).2.1 job_id t2).2.2 = false := by
  rcases hc : s.job_cache job_id with _ | cached
  · simp [get_job_pids, hc, h2]
  · by_cases hfresh : t1 - s.last_cache_update < cache_timeout
    · exfalso
      simp [get_job_pids, hc, hfresh] at h1
    · simp [get_job_pids, hc, hfresh, h2]

/-- Witness for C7 (amended): first lookup of "J1" at time 0, second at
time 29 with TTL 30. -/
theorem refresh_then_hit_witness :
    (get_job_pids 30 true resolve_AB (fun _ => ∅)
        (get_job_pids 30 true resolve_AB (fun _ => ∅)
          empty_slurm_cache "J1" 0).2.1 "J1" 29).1
      = (get_job_pids 30 true resolve_AB (fun _ => ∅)
          empty_slurm_cache "J1" 0).1
    ∧ (get_job_pids 30 true resolve_AB (fun _ => ∅)
        (get_job_pids 30 true resolve_AB (fun _ => ∅)
          empty_slurm_cache "J1" 0).2.1 "J1" 29).2.2 = false :=
  refresh_then_hit 30 true resolve_AB (fun _ => ∅)
    empty_slurm_cache "J1" 0 29
    (by norm_num [get_job_pids, empty_slurm_cache]) (by norm_num)

/-- The fallback loop never grows the job list beyond 50 entries. -/
theorem fallback_jobs_loop_length (user_filter : Option String) (now : ℤ)
    (nodename : String) :
    ∀ (procs : List ProcInfo) (jobs : List JobDescriptor) (c : ℕ),
      jobs.length < 50 →
      (fallback_jobs_loop user_filter now nodename procs jobs c).length ≤ 50 := by
  intro procs
  induction procs with
  | nil =>
    intro jobs c h
    rw [fallback_jobs_loop]
    omega
  | cons p rest ih =>
    intro jobs c h
    simp only [fallback_jobs_loop]
    split_ifs with h1 h2 h3
    · exact ih jobs c h
    · exact ih jobs c h
    · simp only [List.length_append, List.length_singleton]
      omega
    · refine ih _ _ ?_
      simp only [List.length_append, List.length_singleton] at h3 ⊢
      omega

/-- The job ids appended by the fallback loop are the consecutive
strings "proc_" ++ toString c, "proc_" ++ toString (c+1), .... -/
theorem fallback_jobs_loop_ids (user_filter : Option String) (now : ℤ)
    (nodename : String) :
    ∀ (procs : List ProcInfo) (jobs : List JobDescriptor) (c : ℕ),
      ∃ k, (fallback_jobs_loop user_filter now nodename procs jobs c).map
            JobDescriptor.job_id
        = jobs.map JobDescriptor.job_id
            ++ (List.range' c k).map (fun n => "proc_" ++ toString n) := by
  intro procs
  induction procs with
  | nil =>
    intro jobs c
    exact ⟨0, by rw [fallback_jobs_loop]; simp⟩
  | cons p rest ih =>
    intro jobs c
    simp only [fallback_jobs_loop]
    split_ifs with h1 h2 h3
    · exact ih jobs c
    · exact ih jobs c
    · refine ⟨1, ?_⟩
      simp [List.range'_succ, pseudo_job]
    · obtain ⟨k, hk⟩ := ih (jobs ++ [pseudo_job c p now nodename]) (c + 1)
      refine ⟨k + 1, ?_⟩
      rw [hk]
      simp [List.range'_succ, pseudo_job]

/-- Every job produced by the fallback loop either was already present
or is the pseudo-job of some non-system process from the input list. -/
theorem fallback_jobs_loop_mem (user_filter : Option String) (now : ℤ)
    (nodename : String) :
    ∀ (procs : List ProcInfo) (jobs : List JobDescriptor) (c : ℕ),
      ∀ j ∈ fallback_jobs_loop user_filter now nodename procs jobs c,
        j ∈ jobs
        ∨ ∃ p ∈ procs, ∃ m, j = pseudo_job m p now nodename
            ∧ p.username ∉ system_users := by
  intro procs
  induction procs with
  | nil =>
    intro jobs c j hj
    rw [fallback_jobs_loop] at hj
    exact Or.inl hj
  | cons p rest ih =>
    intro jobs c j hj
    simp only [fallback_jobs_loop] at hj
    split_ifs at hj with h1 h2 h3
    · rcases ih jobs c j hj with h | ⟨q, hq, m, hm, hu⟩
      · exact Or.inl h
      · exact Or.inr ⟨q, List.mem_cons_of_mem p hq, m, hm, hu⟩
    · rcases ih jobs c j hj with h | ⟨q, hq, m, hm, hu⟩
      · exact Or.inl h
      · exact Or.inr ⟨q, List.mem_cons_of_mem p hq, m, hm, hu⟩
    · rcases List.mem_append.1 hj with h | h
      · exact Or.inl h
      · exact Or.inr ⟨p, List.mem_cons_self p rest, c, List.mem_singleton.1 h, h2⟩
    · rcases ih _ _ j hj with h | ⟨q, hq, m, hm, hu⟩
      · rcases List.mem_append.1 h with h4 | h4
        · exact Or.inl h4
        · exact Or.inr ⟨p, List.mem_cons_self p rest, c, List.mem_singleton.1 h4, h2⟩
      · exact Or.inr ⟨q, List.mem_cons_of_mem p hq, m, hm, hu⟩

/-- C9: with the scheduler unavailable, listing running jobs yields at
most 50 pseudo-jobs, with sequential ids "proc_1", "proc_2", ...,
each in state "RUNNING" and corresponding to one non-system
user-owned process from the scan. -/
theorem fallback_pseudo_jobs (squeue_jobs : List JobDescriptor)
    (procs : List ProcInfo) (now : ℤ) (nodename : String) :
    (get_running_jobs false squeue_jobs procs now nodename).length ≤ 50
    ∧ (get_running_jobs false squeue_jobs procs now nodename).map
          JobDescriptor.job_id
        = (List.range' 1
            (get_running_jobs false squeue_jobs procs now nodename).length).map
            (fun n => "proc_" ++ toString n)
    ∧ ∀ j ∈ get_running_jobs false squeue_jobs procs now nodename,
        j.state = "RUNNING"
        ∧ ∃ p ∈ procs, j.user = p.username ∧ j.name = p.pname
            ∧ p.username ∉ system_users := by
  have hrun : get_running_jobs false squeue_jobs procs now nodename
      = fallback_jobs_loop none now nodename procs [] 1 := rfl
  refine ⟨?_, ?_, ?_⟩
  · rw [hrun]
    exact fallback_jobs_loop_length none now nodename procs [] 1 (by simp)
  · rw [hrun]
    obtain ⟨k, hk⟩ := fallback_jobs_loop_ids none now nodename procs [] 1
    simp only [List.map_nil, List.nil_append] at hk
    have hlen : (fallback_jobs_loop none now nodename procs [] 1).length = k := by
      have h := congrArg List.length hk
      simpa using h
    rw [hlen]
    exact hk
  · rw [hrun]
    intro j hj
    rcases fallback_jobs_loop_mem none now nodename procs [] 1 j hj with h | ⟨p, hp, m, hm, hu⟩
    · simp at h
    · refine ⟨?_, p, hp, ?_, ?_, hu⟩ <;> rw [hm] <;> rfl

/-- Witness for C9: a single user process "alice"/"bash" yields a
RUNNING pseudo-job backed by that process. -/
theorem fallback_pseudo_jobs_witness :
    (pseudo_job 1 proc_alice 5 "n1").state = "RUNNING"
    ∧ ∃ p ∈ [proc_alice], (pseudo_job 1 proc_alice 5 "n1").user = p.username
        ∧ (pseudo_job 1 proc_alice 5 "n1").name = p.pname
        ∧ p.username ∉ system_users :=
  (fallback_pseudo_jobs [] [proc_alice] 5 "n1").2.2
    (pseudo_job 1 proc_alice 5 "n1") (by decide)

/-- The initial accumulator is below the running maximum of timestamps. -/
theorem foldl_max_init_le :
    ∀ (l : List SchedEvent) (d : ℤ),
      d ≤ l.foldl (fun m x => max m x.timestamp) d := by
  intro l
  induction l with
  | nil => intro d; simp
  | cons e rest ih =>
    intro d
    simp only [List.foldl_cons]
    exact le_trans (le_max_left d e.timestamp) (ih (max d e.timestamp))

/-- Every member's timestamp is below the running maximum. -/
theorem foldl_max_mem_le :
    ∀ (l : List SchedEvent) (d : ℤ), ∀ x ∈ l,
      x.timestamp ≤ l.foldl (fun m x => max m x.timestamp) d := by
  intro l
  induction l with
  | nil => intro d x hx; simp at hx
  | cons e rest ih =>
    intro d x hx
    simp only [List.foldl_cons]
    rcases List.mem_cons.1 hx with rfl | hx2
    · exact le_trans (le_max_right d x.timestamp) (foldl_max_init_le rest (max d x.timestamp))
    · exact ih (max d e.timestamp) x hx2

/-- The running minimum of timestamps is below the initial accumulator. -/
theorem foldl_min_le_init :
    ∀ (l : List SchedEvent) (d : ℤ),
      l.foldl (fun m x => min m x.timestamp) d ≤ d := by
  intro l
  induction l with
  | nil => intro d; simp
  | cons e rest ih =>
    intro d
    simp only [List.foldl_cons]
    exact le_trans (ih (min d e.timestamp)) (min_le_left d e.timestamp)

/-- The running minimum is below every member's timestamp. -/
theorem foldl_min_le_mem :
    ∀ (l : List SchedEvent) (d : ℤ), ∀ x ∈ l,
      l.foldl (fun m x => min m x.timestamp) d ≤ x.timestamp := by
  intro l
  induction l with
  | nil => intro d x hx; simp at hx
  | cons e rest ih =>
    intro d x hx
    simp only [List.foldl_cons]
    rcases List.mem_cons.1 hx with rfl | hx2
    · exact le_trans (foldl_min_le_init rest (min d x.timestamp)) (min_le_right d x.timestamp)
    · exact ih (min d e.timestamp) x hx2

/-- Precondition carried through the fold: a recorded scheduled-in
timestamp never precedes the running lower bound. -/
def open_since_ok : Option ℤ → ℤ → Prop
  | none, _ => True
  | some t, lb => lb ≤ t

/-- Over a timestamp-sorted event list whose timestamps lie in [lb, ub],
the CPU periods accumulated by the fold grow the running sum by at most
ub − lb: closed intervals are pairwise disjoint and contained in the
window. -/
theorem sched_fold_sum_le (target_pid : ℕ) :
    ∀ (l : List SchedEvent), l.Sorted sched_le →
    ∀ (lb ub : ℤ), lb ≤ ub →
    (∀ e ∈ l, lb ≤ e.timestamp ∧ e.timestamp ≤ ub) →
    ∀ (st : Option ℤ), open_since_ok st lb →
    ∀ (acc : List ℤ),
      (sched_fold target_pid l st acc).sum ≤ acc.sum + (ub - lb) := by
  intro l
  induction l with
  | nil =>
    intro _ lb ub hlu _ st _ acc
    simp only [sched_fold]
    linarith
  | cons e rest ih =>
    intro hsort lb ub hlu hmem st hst acc
    have hsort2 : rest.Sorted sched_le := hsort.of_cons
    have hrest : ∀ x ∈ rest, lb ≤ x.timestamp ∧ x.timestamp ≤ ub :=
      fun x hx => hmem x (List.mem_cons_of_mem e hx)
    have he := hmem e (List.mem_cons_self e rest)
    simp only [sched_fold]
    by_cases h1 : e.next_pid = target_pid
    · rw [if_pos h1]
      exact ih hsort2 lb ub hlu hrest (some e.timestamp) he.1 acc
    · rw [if_neg h1]
      cases st with
      | none => exact ih hsort2 lb ub hlu hrest none trivial acc
      | some t =>
        dsimp only
        by_cases h2 : e.prev_pid = target_pid ∧ t ≠ 0
        · rw [if_pos h2]
          have hmem2 : ∀ x ∈ rest, e.timestamp ≤ x.timestamp ∧ x.timestamp ≤ ub :=
            fun x hx => ⟨(List.sorted_cons.1 hsort).1 x hx, (hrest x hx).2⟩
          have hrec := ih hsort2 e.timestamp ub he.2 hmem2 none trivial
            (acc ++ [e.timestamp - t])
          have hsum : (acc ++ [e.timestamp - t]).sum = acc.sum + (e.timestamp - t) := by
            simp
          rw [hsum] at hrec
          have hlt : lb ≤ t := hst
          linarith
        · rw [if_neg h2]
          exact ih hsort2 lb ub hlu hrest (some t) hst acc

/-- C6: for every scheduler-switch event list and target PID, the total
CPU-on time accumulated by `_analyze_sched_events` (events processed in
timestamp order, each scheduled-in matched against the next
scheduled-out, an out with no open in ignored) never exceeds the
wall-clock span from the earliest to the latest event timestamp. -/
theorem cpu_periods_sum_le_span (events : List SchedEvent) (target_pid : ℕ) :
    ((analyze_sched_events events target_pid).1).sum ≤ sched_span events := by
  cases events with
  | nil => simp [analyze_sched_events, sched_span]
  | cons e rest =>
    by_cases hlen : (e :: rest).length < 2
    · unfold analyze_sched_events
      rw [if_pos hlen]
      simp only [List.sum_nil, sched_span]
      have h1 := foldl_min_le_init rest e.timestamp
      have h2 := foldl_max_init_le rest e.timestamp
      linarith
    · unfold analyze_sched_events
      rw [if_neg hlen]
      have hsort : (List.insertionSort sched_le (e :: rest)).Sorted sched_le :=
        List.sorted_insertionSort sched_le (e :: rest)
      have hperm := List.perm_insertionSort sched_le (e :: rest)
      have hlb_ub : rest.foldl (fun m x => min m x.timestamp) e.timestamp
          ≤ rest.foldl (fun m x => max m x.timestamp) e.timestamp :=
        le_trans (foldl_min_le_init rest e.timestamp) (foldl_max_init_le rest e.timestamp)
      have hmem : ∀ x ∈ List.insertionSort sched_le (e :: rest),
          rest.foldl (fun m x => min m x.timestamp) e.timestamp ≤ x.timestamp
          ∧ x.timestamp ≤ rest.foldl (fun m x => max m x.timestamp) e.timestamp := by
        intro x hx
        have hx2 : x ∈ e :: rest := hperm.mem_iff.1 hx
        rcases List.mem_cons.1 hx2 with rfl | hx3
        · exact ⟨foldl_min_le_init rest x.timestamp, foldl_max_init_le rest x.timestamp⟩
        · exact ⟨foldl_min_le_mem rest e.timestamp x hx3,
            foldl_max_mem_le rest e.timestamp x hx3⟩
      have hb := sched_fold_sum_le target_pid
        (List.insertionSort sched_le (e :: rest)) hsort
        (rest.foldl (fun m x => min m x.timestamp) e.timestamp)
        (rest.foldl (fun m x => max m x.timestamp) e.timestamp)
        hlb_ub hmem none trivial []
      simpa [sched_span] using hb

/-- C5: metric composition is associative: folding two windowed
measurements one at a time equals folding their merge, where `merge`
sums every counter field and carries the count-weighted average
syscall duration, all in exact rational arithmetic. -/
theorem update_metrics_assoc (old_metrics a b : JobMetrics) :
    update_metrics (update_metrics old_metrics a) b
      = update_metrics old_metrics (merge_metrics a b) := by
  apply JobMetrics.ext
  -- total_syscalls
  · simp only [update_metrics, merge_metrics]
    omega
  -- io_syscalls
  · simp only [update_metrics, merge_metrics]
    omega
  -- net_syscalls
  · simp only [update_metrics, merge_metrics]
    omega
  -- context_switches
  · simp only [update_metrics, merge_metrics]
    omega
  -- cpu_time_ns
  · simp only [update_metrics, merge_metrics]
    omega
  -- wait_time_ns
  · simp only [update_metrics, merge_metrics]
    omega
  -- cpu_percent
  · simp only [update_metrics, merge_metrics]
    split_ifs <;> first | rfl | (exfalso; omega) | (push_cast; ring)
  -- wait_percent
  · simp only [update_metrics, merge_metrics]
    split_ifs <;> first | rfl | (exfalso; omega) | (push_cast; ring)
  -- io_percent
  · simp only [update_metrics, merge_metrics]
    split_ifs <;> first | rfl | (exfalso; omega) | (push_cast; ring)
  -- net_percent
  · simp only [update_metrics, merge_metrics]
    split_ifs <;> first | rfl | (exfalso; omega) | (push_cast; ring)
  -- total_io_bytes
  · simp only [update_metrics, merge_metrics]
    omega
  -- read_bytes
  · simp only [update_metrics, merge_metrics]
    omega
  -- write_bytes
  · simp only [update_metrics, merge_metrics]
    omega
  -- io_operations
  · simp only [update_metrics, merge_metrics]
    omega
  -- total_net_bytes
  · simp only [update_metrics, merge_metrics]
    omega
  -- send_bytes
  · simp only [update_metrics, merge_metrics]
    omega
  -- recv_bytes
  · simp only [update_metrics, merge_metrics]
    omega
  -- net_operations
  · simp only [update_metrics, merge_metrics]
    omega
  -- avg_syscall_duration
  · simp only [update_metrics, merge_metrics]
    rcases Nat.eq_zero_or_pos (old_metrics.total_syscalls + a.total_syscalls + b.total_syscalls) with h | h
    · have h0 : old_metrics.total_syscalls = 0 := by omega
      have h1 : a.total_syscalls = 0 := by omega
      have h2 : b.total_syscalls = 0 := by omega
      simp [h0, h1, h2]
    · rcases Nat.eq_zero_or_pos (old_metrics.total_syscalls + a.total_syscalls) with h1 | h1
      · have h0 : old_metrics.total_syscalls = 0 := by omega
        have ha : a.total_syscalls = 0 := by omega
        have hb : 0 < b.total_syscalls := by omega
        have hbq : ((b.total_syscalls : ℕ) : ℚ) ≠ 0 := Nat.cast_ne_zero.2 (by omega)
        simp [h0, ha, hb]
        field_simp
      · rcases Nat.eq_zero_or_pos (a.total_syscalls + b.total_syscalls) with h2 | h2
        · have ha : a.total_syscalls = 0 := by omega
          have hb : b.total_syscalls = 0 := by omega
          have ho : 0 < old_metrics.total_syscalls := by omega
          have hoq : ((old_metrics.total_syscalls : ℕ) : ℚ) ≠ 0 := Nat.cast_ne_zero.2 (by omega)
          simp [ha, hb, ho]
          field_simp
        · have c2 : 0 < old_metrics.total_syscalls + (a.total_syscalls + b.total_syscalls) := by omega
          have d1 : ((old_metrics.total_syscalls : ℚ) + (a.total_syscalls : ℚ)) ≠ 0 := by
            have h3 : ((old_metrics.total_syscalls + a.total_syscalls : ℕ) : ℚ) ≠ 0 :=
              Nat.cast_ne_zero.2 (by omega)
            push_cast at h3
            exact h3
          have d2 : ((a.total_syscalls : ℚ) + (b.total_syscalls : ℚ)) ≠ 0 := by
            have h3 : ((a.total_syscalls + b.total_syscalls : ℕ) : ℚ) ≠ 0 :=
              Nat.cast_ne_zero.2 (by omega)
            push_cast at h3
            exact h3
          have d3 : ((old_metrics.total_syscalls : ℚ) + (a.total_syscalls : ℚ) + (b.total_syscalls : ℚ)) ≠ 0 := by
            have h3 : ((old_metrics.total_syscalls + a.total_syscalls + b.total_syscalls : ℕ) : ℚ) ≠ 0 :=
              Nat.cast_ne_zero.2 (by omega)
            push_cast at h3
            exact h3
          rw [if_pos h, if_pos c2, if_pos h1, if_pos h2]
          push_cast
          field_simp
          ring
  -- monitored_pids
  · simp only [update_metrics, merge_metrics]

/-- Witness for C3 (amended), discharging both positivity hypotheses at
concrete records with positive time and syscall sums. -/
theorem update_metrics_fields_witness :
    ((update_metrics update_old_pos update_new_pos).cpu_percent
        = (((update_old_pos.cpu_time_ns + update_new_pos.cpu_time_ns : ℕ) : ℚ)
            / (((update_old_pos.cpu_time_ns + update_new_pos.cpu_time_ns)
                + (update_old_pos.wait_time_ns + update_new_pos.wait_time_ns) : ℕ) : ℚ)) * 100
      ∧ (update_metrics update_old_pos update_new_pos).wait_percent
        = (((update_old_pos.wait_time_ns + update_new_pos.wait_time_ns : ℕ) : ℚ)
            / (((update_old_pos.cpu_time_ns + update_new_pos.cpu_time_ns)
                + (update_old_pos.wait_time_ns + update_new_pos.wait_time_ns) : ℕ) : ℚ)) * 100)
    ∧ ((update_metrics update_old_pos update_new_pos).io_percent
        = (((update_old_pos.io_syscalls + update_new_pos.io_syscalls : ℕ) : ℚ)
            / ((update_old_pos.total_syscalls + update_new_pos.total_syscalls : ℕ) : ℚ)) * 100
      ∧ (update_metrics update_old_pos update_new_pos).net_percent
        = (((update_old_pos.net_syscalls + update_new_pos.net_syscalls : ℕ) : ℚ)
            / ((update_old_pos.total_syscalls + update_new_pos.total_syscalls : ℕ) : ℚ)) * 100) :=
  ⟨(update_metrics_fields update_old_pos update_new_pos).2.2.1 (by decide),
   (update_metrics_fields update_old_pos update_new_pos).2.2.2 (by decide)⟩
